import Mathlib

/-!
Verification of the pypvasync core: the DBR field-type catalog and
promotion rules (src/epics/dbr.py), the timestamp conversion, the
CTRL_ENUM metadata decoding, and the asynchronous get pipeline
(src/epics/coroutines.py, src/pvasync/utils.py).

Python integer enum tags are embedded as `Nat`; dictionary lookups that
can raise `KeyError` become `Option`; code paths that can raise Python
exceptions become `Except PyErr`.
-/

namespace PVAsync

/-! ## src/epics/dbr.py — ChannelType tags

`ChannelType` is a Python `IntEnum`; aliases (INT = SHORT = 1, etc.)
share one numeric value, and comparison is numeric, so each tag is a
`Nat` here. -/

namespace ChannelType

def STRING : Nat := 0

def INT : Nat := 1

def SHORT : Nat := 1

def FLOAT : Nat := 2

def ENUM : Nat := 3

def CHAR : Nat := 4

def LONG : Nat := 5

def DOUBLE : Nat := 6

def STS_STRING : Nat := 7

def STS_SHORT : Nat := 8

def STS_INT : Nat := 8

def STS_FLOAT : Nat := 9

def STS_ENUM : Nat := 10

def STS_CHAR : Nat := 11

def STS_LONG : Nat := 12

def STS_DOUBLE : Nat := 13

def TIME_STRING : Nat := 14

def TIME_INT : Nat := 15

def TIME_SHORT : Nat := 15

def TIME_FLOAT : Nat := 16

def TIME_ENUM : Nat := 17

def TIME_CHAR : Nat := 18

def TIME_LONG : Nat := 19

def TIME_DOUBLE : Nat := 20

def CTRL_STRING : Nat := 28

def CTRL_INT : Nat := 29

def CTRL_SHORT : Nat := 29

def CTRL_FLOAT : Nat := 30

def CTRL_ENUM : Nat := 31

def CTRL_CHAR : Nat := 32

def CTRL_LONG : Nat := 33

def CTRL_DOUBLE : Nat := 34

end ChannelType

/-- The set of numeric values that are valid `ChannelType` members
(`ChType(n)` succeeds exactly on these). -/
def channelTypeValues : List Nat :=
  [0, 1, 2, 3, 4, 5, 6, 7, 8, 9, 10, 11, 12, 13,
   14, 15, 16, 17, 18, 19, 20, 28, 29, 30, 31, 32, 33, 34]

/-- `native_types` tuple of dbr.py: (STRING, INT, SHORT, FLOAT, ENUM,
CHAR, LONG, DOUBLE); INT and SHORT alias to 1. -/
def native_types : List Nat := [0, 1, 1, 2, 3, 4, 5, 6]

/-- `status_types` tuple of dbr.py. -/
def status_types : List Nat := [7, 8, 8, 9, 10, 11, 12, 13]

/-- `time_types` tuple of dbr.py. -/
def time_types : List Nat := [14, 15, 15, 16, 17, 18, 19, 20]

/-- `control_types` tuple of dbr.py. -/
def control_types : List Nat := [28, 29, 29, 30, 31, 32, 33, 34]

/-- `char_types` tuple of dbr.py: (CHAR, TIME_CHAR, CTRL_CHAR). -/
def char_types : List Nat := [4, 18, 32]

/-- `native_float_types` tuple of dbr.py: (FLOAT, DOUBLE). -/
def native_float_types : List Nat := [2, 6]

/-- `_native_map` dict of dbr.py, as a partial function on tags.
Duplicate dict keys from enum aliasing (e.g. TIME_INT and TIME_SHORT
are both 15) assign the same numeric value, so the dict is well
defined on the 28 distinct tag values; any other tag is a `KeyError`,
hence `none`. -/
def native_map : Nat → Option Nat
  | 0 => some 0
  | 1 => some 1
  | 2 => some 2
  | 3 => some 3
  | 4 => some 4
  | 5 => some 5
  | 6 => some 6
  | 7 => some 0
  | 8 => some 1
  | 9 => some 2
  | 10 => some 3
  | 11 => some 4
  | 12 => some 5
  | 13 => some 6
  | 14 => some 0
  | 15 => some 1
  | 16 => some 2
  | 17 => some 3
  | 18 => some 4
  | 19 => some 5
  | 20 => some 6
  | 28 => some 0
  | 29 => some 1
  | 30 => some 2
  | 31 => some 3
  | 32 => some 4
  | 33 => some 5
  | 34 => some 6
  | _ => none

/-- `native_type(ftype)` of dbr.py: `_native_map[ftype]`, a dict
lookup that raises `KeyError` (`none`) on an unknown tag. -/
def native_type (ftype : Nat) : Option Nat :=
  native_map ftype

/-- `promote_type(ftype, use_time=False, use_ctrl=False)` of dbr.py.
The source first demotes via `_native_map.get(ftype, None)` (a missing
tag makes `ChType(None)` raise, hence `none`), then adds
`CTRL_STRING` (28) if `use_ctrl`, else `TIME_STRING` (14) if
`use_time`, and finally collapses CTRL_STRING to TIME_STRING. -/
def promote_type (ftype : Nat) (use_time : Bool) (use_ctrl : Bool) :
    Option Nat :=
  match native_map ftype with
  | none => none
  | some n =>
    let f := if use_ctrl then n + ChannelType.CTRL_STRING
             else if use_time then n + ChannelType.TIME_STRING
             else n
    some (if f = ChannelType.CTRL_STRING then ChannelType.TIME_STRING else f)

/-! ## src/epics/dbr.py — TimeStamp and its Unix-time conversion

`TimeStamp.unixtime` computes
`EPICS2UNIX_EPOCH + secs + 1.e-6 * int(1.e-3 * nsec)` on Python
floats.  `secs` and `nsec` are unsigned 32-bit fields, so they are
`Nat` here; the float arithmetic is embedded over `ℚ`, with
`int(1.e-3 * nsec)` (truncation of nanoseconds to whole microseconds)
as natural division by 1000.  At microsecond granularity every value
involved is exactly representable, so the rational model agrees with
the double-precision evaluation on the inputs considered here. -/

/-- `EPICS2UNIX_EPOCH` of dbr.py: seconds from the Unix epoch to the
EPICS epoch 1990-01-01T00:00:00Z. -/
def EPICS2UNIX_EPOCH : ℚ := 631152000

/-- `TimeStamp.unixtime` of dbr.py (the property body), as a function
of the two record fields. -/
def make_unixtime (secs nsec : Nat) : ℚ :=
  EPICS2UNIX_EPOCH + secs + (1 / 1000000 : ℚ) * (nsec / 1000 : Nat)

/-! ## src/pvasync/utils.py — decode_bytes, and ctypes char-array value

`decode_bytes` slices its input before the first 0 byte (keeping
everything when there is none: the `ValueError` from `index` is
caught) and decodes it as latin-1, under which byte `b` becomes the
character with code point `b`.  A byte string is a `List Nat` of
values < 256. -/

/-- `decode_bytes(bytes_)` of src/pvasync/utils.py. -/
def decode_bytes (bs : List Nat) : String :=
  String.mk ((bs.takeWhile (fun b => b ≠ 0)).map Char.ofNat)

/-- The `.value` accessor of a ctypes `c_char` array: the bytes up to
(excluding) the first NUL byte. -/
def ctypes_char_value (bs : List Nat) : List Nat :=
  bs.takeWhile (fun b => b ≠ 0)

/-! ## src/epics/dbr.py — ctrl_enum.to_dict

A decoded DBR_CTRL_ENUM record: status and severity (int16), the
reported string count `no_str` (int16, so it may exceed the table
capacity MAX_ENUM_STATES = 16 or be negative), the 16-entry table of
26-byte strings, and the enum value.  `ControlTypeBase.to_dict`
returns only `dict(severity=...)`; `ctrl_enum.to_dict` adds
`enum_strs` when `no_str > 0`, reading `strs[i].value` for
`i < no_str` — a read past index 15 raises `IndexError`. -/

inductive PyErr where
  | valueError
  | typeError
  | attributeError
  | indexError
  | timeoutError
  deriving DecidableEq, Repr

/-- A decoded `ctrl_enum` structure (dbr.py). -/
structure CtrlEnumRec where
  status : Int
  severity : Int
  no_str : Int
  strs : List (List Nat)
  value : Nat

/-- `ctrl_enum.to_dict` of dbr.py.  The result dictionary is the
severity together with the optional `enum_strs` entry; `none` means
the key is absent. -/
def ctrl_enum_to_dict (r : CtrlEnumRec) :
    Except PyErr (Int × Option (List String)) :=
  if 0 < r.no_str then
    if r.no_str.toNat ≤ r.strs.length then
      Except.ok (r.severity,
        some ((List.range r.no_str.toNat).map
          (fun i => decode_bytes (ctypes_char_value (r.strs.getD i [])))))
    else
      Except.error PyErr.indexError
  else
    Except.ok (r.severity, none)

/-! ## src/epics/dbr.py — module namespace

The module-level names bound in src/epics/dbr.py, in definition
order.  Attribute access `dbr.X` succeeds exactly when `X` is in this
list; otherwise Python raises `AttributeError`.  Notably absent:
`ENUM` (the tag lives only on `ChannelType`/`ChType`), `_stat_sev_ts`
and `make_unixtime` (both referenced by src/epics/coroutines.py). -/

def dbr_module_attrs : List String :=
  ["ctypes", "np", "IntEnum", "PY64_WINDOWS", "decode_bytes",
   "short_t", "ushort_t", "int_t", "uint_t", "long_t", "float_t",
   "double_t", "byte_t", "ubyte_t", "char_t", "void_p", "chid_t",
   "MAX_STRING_SIZE", "MAX_UNITS_SIZE", "MAX_ENUM_STRING_SIZE",
   "MAX_ENUM_STATES", "EPICS2UNIX_EPOCH", "string_t", "value_offset",
   "ECA", "ConnStatus", "ChannelType", "SubscriptionType", "ChType",
   "enum_types", "native_types", "status_types", "time_types",
   "control_types", "char_types", "native_float_types",
   "TimeStamp", "TimeType", "TimeString", "TimeShort", "TimeFloat",
   "TimeEnum", "TimeChar", "TimeLong", "TimeDouble",
   "_ctrl_lims", "ctrl_lims_short", "ctrl_lims_byte", "ctrl_lims_int",
   "ctrl_lims_float", "ctrl_lims_double",
   "ControlTypeBase", "ControlTypeUnits", "ControlTypePrecision",
   "ctrl_enum", "ctrl_short", "ctrl_char", "ctrl_long", "ctrl_float",
   "ctrl_double", "event_handler_args", "connection_args",
   "_numpy_map", "_ftype_to_ctype", "_native_map",
   "native_type", "promote_type"]

/-! ## src/epics/coroutines.py — _as_string and get's as_string step

`_as_string(val, chid, count, ftype)`:
  - CHAR family below the configured threshold:
    `strjoin('', [chr(i) for i in val if i > 0]).strip()`;
  - otherwise the `elif` condition evaluates `dbr.ENUM`, which raises
    `AttributeError` (dbr.py binds no module-level `ENUM`); were the
    tag reachable as `ChannelType.ENUM`, the branch body
    `yield from get_enum_strings(chid)[val]` subscripts the coroutine
    object returned by `get_enum_strings(chid)`, raising `TypeError`;
  - `elif count > 1`: a placeholder descriptor string;
  - finally `str(val)`.

`get(...)` wraps the call in `try: ... except ValueError: pass`, so
only `ValueError` degrades to the unconverted value; every other
exception propagates to the caller. -/

/-- A Python value flowing through the as-string conversion: a scalar
integer, an array of byte/element values, or a string. -/
inductive PyVal where
  | int (i : Int)
  | arr (l : List Nat)
  | str (s : String)
  deriving DecidableEq, Repr

/-- `str(...)` on the values above (only the scalar and string cases
are exercised by the claims). -/
def pystr : PyVal → String
  | PyVal.int i => toString i
  | PyVal.arr l => toString l
  | PyVal.str s => s

/-- Python `str.strip()` restricted to ASCII whitespace. -/
def isPySpace (c : Char) : Bool :=
  c = ' ' ∨ c = '\t' ∨ c = '\n' ∨ c.toNat = 13 ∨ c.toNat = 11 ∨ c.toNat = 12

/-- `strjoin('', [chr(i) for i in val if i > 0]).strip()` of
`_as_string`: drop non-positive elements, decode each remaining
element as the character with that code point, strip whitespace. -/
def char_array_to_string (val : List Nat) : String :=
  String.mk
    (((((val.filter (fun i => 0 < i)).map Char.ofNat).dropWhile
        isPySpace).reverse.dropWhile isPySpace).reverse)

/-- `_as_string(val, chid, count, ftype)` of coroutines.py, for a
given threshold `maxlen` standing for `config.AUTOMONITOR_MAXLENGTH`
(the config module is outside the modelled core). -/
def as_string_conv (maxlen ftype count : Nat) (val : PyVal) :
    Except PyErr PyVal :=
  if ftype ∈ char_types ∧ count < maxlen then
    match val with
    | PyVal.arr l => Except.ok (PyVal.str (char_array_to_string l))
    | _ => Except.error PyErr.typeError
  else if "ENUM" ∉ dbr_module_attrs then
    Except.error PyErr.attributeError
  else if ftype = ChannelType.ENUM ∧ count = 1 then
    Except.error PyErr.typeError
  else if 1 < count then
    Except.ok (PyVal.str
      ("<array count=" ++ toString count ++ ", type=" ++ toString ftype
        ++ ">"))
  else
    Except.ok (PyVal.str (pystr val))

/-- The `as_string` step of `get` (coroutines.py lines 157-161):
`try: val = yield from _as_string(...) except ValueError: pass`. -/
def get_as_string_step (maxlen ftype count : Nat) (val : PyVal) :
    Except PyErr PyVal :=
  match as_string_conv maxlen ftype count val with
  | Except.ok v => Except.ok v
  | Except.error PyErr.valueError => Except.ok val
  | Except.error e => Except.error e

/-! ## src/epics/coroutines.py — CAFuture and the pending registry

`_pending_futures` is a module-level dict keyed by the future itself;
`CAFuture.__init__` inserts `self`, and the only deletion is
`ca_callback_done`, invoked from the completion callback's handler.
Futures are identified here by a token (`Nat`); the registry is the
list of registered tokens. -/

/-- State of one `CAFuture` (an `asyncio.Future`): whether `cancel()`
has been called and whether a result was set. -/
structure CAFuture where
  cancelled : Bool
  done : Bool
  deriving DecidableEq, Repr

/-- `CAFuture.__init__`: a fresh, unresolved future whose token is
inserted into `_pending_futures`. -/
def cafuture_create (reg : List Nat) (tok : Nat) : List Nat × CAFuture :=
  (tok :: reg, { cancelled := false, done := false })

/-- `CAFuture.ca_callback_done`: `del _pending_futures[self]`. -/
def ca_callback_done (reg : List Nat) (tok : Nat) : List Nat :=
  reg.erase tok

/-- `asyncio.Future.cancel()`. -/
def cafuture_cancel (f : CAFuture) : CAFuture :=
  { f with cancelled := true }

/-- Outcome of an awaited get as seen by the caller. -/
inductive GetOutcome where
  | value (v : PyVal)
  | timeoutError
  deriving DecidableEq, Repr

/-- The timeout branch of `get` (coroutines.py lines 147-151): when
`asyncio.wait_for` raises `TimeoutError`, the code runs
`future.cancel()` and re-raises.  It does not touch
`_pending_futures`. -/
def get_timeout_path (reg : List Nat) (f : CAFuture) :
    List Nat × CAFuture × GetOutcome :=
  (reg, cafuture_cancel f, GetOutcome.timeoutError)

/-- The whole timed-out-get scenario: `get` creates a `CAFuture`
(registering its token), the completion callback never fires, the
timeout elapses, and the timeout branch runs. -/
def get_after_timeout (reg : List Nat) (tok : Nat) :
    List Nat × CAFuture × GetOutcome :=
  let s := cafuture_create reg tok
  get_timeout_path s.1 s.2

/-! ## src/epics/coroutines.py — get's count and timeout resolution

Lines 133-136 and 144-145 of `get`: the element count actually sent
with `ca_array_get_callback` is the channel's element count when no
count is passed, else the minimum of the two; when no timeout is
passed the default is `1.0 + log10(max(1, count))` with that count. -/

/-- Count resolution of `get`. -/
def resolve_count (count : Option Nat) (element_count : Nat) : Nat :=
  match count with
  | none => element_count
  | some c => min c element_count

/-- Timeout resolution of `get`: the supplied timeout, or the default
`1.0 + log10(max(1, count))` seconds. -/
noncomputable def resolve_timeout (timeout : Option ℝ) (count : Nat) : ℝ :=
  match timeout with
  | some t => t
  | none => 1.0 + Real.logb 10 (max 1 count)

/-! ## src/epics/coroutines.py — get_timevars / get_timestamp

After a successful TIME-variant fetch, `get_timevars` evaluates
`isinstance(value, dbr._stat_sev_ts)` and then
`dbr.make_unixtime(value.stamp)`.  dbr.py binds neither name, so the
first of these attribute accesses raises `AttributeError`. -/

/-- The decoded value a TIME-variant fetch hands back: a `TimeType`
structure (dbr.py) — status, severity and the timestamp. -/
structure TimeTypeRec where
  status : Int
  severity : Int
  stamp_secs : Nat
  stamp_nsec : Nat
  deriving DecidableEq, Repr

/-- The result-construction tail of `get_timevars` (coroutines.py
lines 295-302), applied to the fetched TIME structure.  The success
value would be the dictionary `{status, severity, timestamp}`. -/
def get_timevars_result (value : TimeTypeRec) :
    Except PyErr (Int × Int × ℚ) :=
  if "_stat_sev_ts" ∈ dbr_module_attrs then
    if "make_unixtime" ∈ dbr_module_attrs then
      Except.ok (value.status, value.severity,
        make_unixtime value.stamp_secs value.stamp_nsec)
    else
      Except.error PyErr.attributeError
  else
    Except.error PyErr.attributeError

/-- `get_timestamp` (coroutines.py lines 305-309): the `timestamp`
entry of `get_timevars`' dictionary, after the fetch delivered
`value`. -/
def get_timestamp_result (value : TimeTypeRec) : Except PyErr ℚ :=
  Except.map (fun r => r.2.2) (get_timevars_result value)

/-! ## Theorems -/

/-- C1 (counterexample): the round trip
`promote(nativeOf(x), sameFamilyAs(x)) == x` fails for
x = CTRL_STRING, a non-native member of the Control family: its
native type is STRING, and promoting STRING to the Control family
yields TIME_STRING, not CTRL_STRING. -/
theorem promote_roundtrip_ctrl_string_counterexample :
    (ChannelType.CTRL_STRING ∈ control_types
      ∧ ChannelType.CTRL_STRING ∉ native_types)
    ∧ native_type ChannelType.CTRL_STRING = some ChannelType.STRING
    ∧ promote_type ChannelType.STRING false true
        = some ChannelType.TIME_STRING
    ∧ some ChannelType.CTRL_STRING
        ≠ promote_type ChannelType.STRING false true := by
  decide

/-- C1 (amended): the round trip holds for every member of the Time
family, and for every member of the Control family other than
CTRL_STRING; `promote_type` offers no Status-family target (its only
flags are `use_time` and `use_ctrl`), and CTRL_STRING collapses to
TIME_STRING. -/
theorem promote_native_roundtrip :
    (∀ x ∈ time_types,
        Option.bind (native_type x) (fun n => promote_type n true false)
          = some x)
    ∧ (∀ x ∈ control_types, x ≠ ChannelType.CTRL_STRING →
        Option.bind (native_type x) (fun n => promote_type n false true)
          = some x) := by
  decide

/-- Witness for C1 (amended) at x = TIME_DOUBLE and x = CTRL_DOUBLE. -/
theorem promote_native_roundtrip_witness :
    ((20 ∈ time_types ∧ 34 ∈ control_types)
      ∧ (34 : Nat) ≠ ChannelType.CTRL_STRING)
    ∧ Option.bind (native_type 20) (fun n => promote_type n true false)
        = some 20
    ∧ Option.bind (native_type 34) (fun n => promote_type n false true)
        = some 34 :=
  ⟨by decide, promote_native_roundtrip.1 20 (by decide),
    promote_native_roundtrip.2 34 (by decide) (by decide)⟩

/-- C2: promoting STRING to the Control family equals promoting it to
the Time family, both giving TIME_STRING; and any field type whose
native type is STRING, promoted to Control, yields TIME_STRING. -/
theorem promote_string_ctrl_collapse :
    promote_type ChannelType.STRING false true
        = promote_type ChannelType.STRING true false
    ∧ promote_type ChannelType.STRING false true
        = some ChannelType.TIME_STRING
    ∧ ∀ x, native_type x = some ChannelType.STRING →
        promote_type x false true = some ChannelType.TIME_STRING := by
  refine ⟨by decide, by decide, ?_⟩
  intro x h
  simp only [native_type] at h
  simp only [promote_type, h]
  decide

/-- Witness for C2 at x = STS_STRING (7), whose native type is
STRING. -/
theorem promote_string_ctrl_collapse_witness :
    native_type 7 = some ChannelType.STRING
    ∧ promote_type 7 false true = some ChannelType.TIME_STRING :=
  ⟨by decide, promote_string_ctrl_collapse.2.2 7 (by decide)⟩

/-- C9: with both `use_ctrl=True` and `use_time=True`, for a field
type whose native type is not STRING, `use_ctrl` wins (the `elif`
makes `use_time` unread) and the Control-family variant
`native + CTRL_STRING` is returned. -/
theorem promote_ctrl_precedence (ftype n : Nat)
    (h : native_type ftype = some n) (hn : n ≠ ChannelType.STRING) :
    promote_type ftype true true = promote_type ftype false true
    ∧ promote_type ftype true true = some (n + ChannelType.CTRL_STRING) := by
  simp only [native_type] at h
  simp only [ChannelType.STRING] at hn
  have h28 : ¬(n + ChannelType.CTRL_STRING = ChannelType.CTRL_STRING) := by
    simp only [ChannelType.CTRL_STRING]
    omega
  simp [promote_type, h, h28]

/-- Witness for C9 at ftype = DOUBLE (6), native DOUBLE (6): both
flag combinations give CTRL_DOUBLE (34). -/
theorem promote_ctrl_precedence_witness :
    (native_type 6 = some 6 ∧ (6 : Nat) ≠ ChannelType.STRING)
    ∧ promote_type 6 true true = promote_type 6 false true
    ∧ promote_type 6 true true = some (6 + ChannelType.CTRL_STRING) :=
  ⟨by decide, (promote_ctrl_precedence 6 6 (by decide) (by decide)).1,
    (promote_ctrl_precedence 6 6 (by decide) (by decide)).2⟩

/-- C5 (counterexample): the conversion at secs=1, nanos=500000000
gives 631152001.5 (truncating 500000000 ns to 500000 µs = 0.5 s), not
the 631152001.0 the claim states. -/
theorem unixtime_half_second_counterexample :
    make_unixtime 1 500000000 = 631152001.5
    ∧ make_unixtime 1 500000000 ≠ 631152001 := by
  norm_num [make_unixtime, EPICS2UNIX_EPOCH]

/-- C5 (amended): secs=0, nanos=0 converts to exactly 631152000.0;
secs=1, nanos=500000000 converts to 631152001.5; nanoseconds are
truncated to microsecond resolution (999 ns contribute nothing, 1999
ns contribute exactly one microsecond). -/
theorem unixtime_epoch_and_truncation :
    make_unixtime 0 0 = 631152000
    ∧ make_unixtime 1 500000000 = 631152001.5
    ∧ make_unixtime 0 999 = 631152000
    ∧ make_unixtime 0 1999 = 631152000 + 1 / 1000000 := by
  norm_num [make_unixtime, EPICS2UNIX_EPOCH]

/-- C10 (counterexample): a decoded CTRL_ENUM record reporting
no_str = 17 (> 0, but past the 16-entry table capacity) makes
`to_dict` raise IndexError instead of producing a dictionary whose
`enum_strs` holds 17 strings. -/
theorem ctrl_enum_overflow_counterexample :
    ctrl_enum_to_dict
        { status := 0, severity := 0, no_str := 17,
          strs := List.replicate 16 (List.replicate 26 0), value := 0 }
      = Except.error PyErr.indexError
    ∧ (0 : Int) < 17 :=
  ⟨rfl, by decide⟩

/-- C10 (amended): for a CTRL_ENUM record with the declared 16-entry
table and no_str within capacity, the dictionary contains `enum_strs`
if and only if no_str > 0, and when present it is exactly the no_str
strings of the table, each trimmed at its first null byte. -/
theorem ctrl_enum_to_dict_enum_strs (r : CtrlEnumRec)
    (hlen : r.strs.length = 16) (hcap : r.no_str ≤ 16) :
    ∃ strsOpt, ctrl_enum_to_dict r = Except.ok (r.severity, strsOpt)
      ∧ (strsOpt.isSome ↔ 0 < r.no_str)
      ∧ ∀ l, strsOpt = some l →
          l = (List.range r.no_str.toNat).map
                (fun i => decode_bytes (ctypes_char_value (r.strs.getD i [])))
          ∧ l.length = r.no_str.toNat := by
  by_cases hpos : 0 < r.no_str
  · have hle : r.no_str.toNat ≤ r.strs.length := by
      rw [hlen]; omega
    refine ⟨some ((List.range r.no_str.toNat).map
        (fun i => decode_bytes (ctypes_char_value (r.strs.getD i [])))),
        ?_, ?_, ?_⟩
    · unfold ctrl_enum_to_dict
      rw [if_pos hpos, if_pos hle]
    · simp [hpos]
    · intro l hl
      cases hl
      exact ⟨rfl, by simp⟩
  · refine ⟨none, ?_, ?_, ?_⟩
    · unfold ctrl_enum_to_dict
      rw [if_neg hpos]
    · simp [hpos]
    · intro l hl
      cases hl

/-- A concrete decoded CTRL_ENUM record: two states "Off" and "On",
the remaining 14 table slots zeroed. -/
def sampleCtrlEnum : CtrlEnumRec :=
  { status := 0, severity := 3, no_str := 2,
    strs := [79, 102, 102, 0, 0] :: [79, 110, 0]
      :: List.replicate 14 (List.replicate 26 0),
    value := 1 }

/-- Witness for C10 (amended) at the concrete two-state record. -/
theorem ctrl_enum_to_dict_enum_strs_witness :
    (sampleCtrlEnum.strs.length = 16 ∧ sampleCtrlEnum.no_str ≤ 16)
    ∧ ∃ strsOpt,
        ctrl_enum_to_dict sampleCtrlEnum
          = Except.ok (sampleCtrlEnum.severity, strsOpt)
        ∧ (strsOpt.isSome ↔ 0 < sampleCtrlEnum.no_str)
        ∧ ∀ l, strsOpt = some l →
            l = (List.range sampleCtrlEnum.no_str.toNat).map
                  (fun i => decode_bytes
                    (ctypes_char_value (sampleCtrlEnum.strs.getD i [])))
            ∧ l.length = sampleCtrlEnum.no_str.toNat :=
  ⟨by decide, ctrl_enum_to_dict_enum_strs sampleCtrlEnum (by decide) (by decide)⟩

/-- C7: a CHAR-family array whose count is below the auto-conversion
threshold, fetched with as_string, is rendered as text (non-positive
bytes dropped, each remaining byte decoded as one character,
whitespace stripped); in particular [72, 105, 0, 0] becomes "Hi". -/
theorem char_array_as_string (maxlen ftype count : Nat)
    (h1 : ftype ∈ char_types) (h2 : count < maxlen) :
    (∀ l, get_as_string_step maxlen ftype count (PyVal.arr l)
        = Except.ok (PyVal.str (char_array_to_string l)))
    ∧ get_as_string_step maxlen ftype count (PyVal.arr [72, 105, 0, 0])
        = Except.ok (PyVal.str "Hi") := by
  have hgen : ∀ l, get_as_string_step maxlen ftype count (PyVal.arr l)
      = Except.ok (PyVal.str (char_array_to_string l)) := by
    intro l
    unfold get_as_string_step as_string_conv
    rw [if_pos ⟨h1, h2⟩]
  refine ⟨hgen, ?_⟩
  rw [hgen]
  have hhi : char_array_to_string [72, 105, 0, 0] = "Hi" := by decide
  rw [hhi]

/-- Witness for C7 at ftype = CHAR (4), count = 4, threshold 128. -/
theorem char_array_as_string_witness :
    ((4 ∈ char_types) ∧ 4 < 128)
    ∧ get_as_string_step 128 4 4 (PyVal.arr [72, 105, 0, 0])
        = Except.ok (PyVal.str "Hi") :=
  ⟨by decide, (char_array_as_string 128 4 4 (by decide) (by decide)).2⟩

/-- C4 (code evaluation): for an ENUM scalar fetched with as_string,
the conversion raises AttributeError to the caller — `_as_string`
evaluates `dbr.ENUM`, which dbr.py does not bind, and `get` catches
only ValueError — instead of degrading to the raw numeric value. -/
theorem enum_as_string_raises (maxlen : Nat) (v : Int) :
    get_as_string_step maxlen ChannelType.ENUM 1 (PyVal.int v)
      = Except.error PyErr.attributeError
    ∧ get_as_string_step maxlen ChannelType.ENUM 1 (PyVal.int v)
      ≠ Except.ok (PyVal.int v) := by
  have h : get_as_string_step maxlen ChannelType.ENUM 1 (PyVal.int v)
      = Except.error PyErr.attributeError := by
    unfold get_as_string_step as_string_conv
    rw [if_neg (fun hc => absurd hc.1 (by decide))]
    rw [if_pos (by decide : "ENUM" ∉ dbr_module_attrs)]
  exact ⟨h, by rw [h]; intro hcontra; cases hcontra⟩

/-- C3 (code evaluation): when the timeout elapses on a get whose
completion callback never fires, the code cancels the future and
raises TimeoutError, but the future's token is still registered in
`_pending_futures` afterwards — the registry is exactly `tok :: reg`,
since only `ca_callback_done` (never reached) deletes it. -/
theorem get_timeout_leaves_token_registered (reg : List Nat) (tok : Nat) :
    (get_after_timeout reg tok).2.2 = GetOutcome.timeoutError
    ∧ (get_after_timeout reg tok).2.1.cancelled = true
    ∧ tok ∈ (get_after_timeout reg tok).1
    ∧ (get_after_timeout reg tok).1 = tok :: reg := by
  refine ⟨rfl, rfl, ?_, rfl⟩
  simp [get_after_timeout, cafuture_create, get_timeout_path]

/-- C8 (code evaluation): after a successful TIME-variant fetch,
`get_timevars` raises AttributeError — dbr.py binds neither
`_stat_sev_ts` nor `make_unixtime` — so neither it nor
`get_timestamp` ever returns the {status, severity, timestamp}
dictionary. -/
theorem get_timevars_attribute_error (value : TimeTypeRec) :
    get_timevars_result value = Except.error PyErr.attributeError
    ∧ get_timestamp_result value = Except.error PyErr.attributeError
    ∧ "_stat_sev_ts" ∉ dbr_module_attrs
    ∧ "make_unixtime" ∉ dbr_module_attrs := by
  have h1 : get_timevars_result value = Except.error PyErr.attributeError := by
    unfold get_timevars_result
    rw [if_neg (by decide : ¬"_stat_sev_ts" ∈ dbr_module_attrs)]
  refine ⟨h1, ?_, by decide, by decide⟩
  unfold get_timestamp_result
  rw [h1]
  rfl

/-- C6: when `get` is called without a timeout, the timeout used is
`1.0 + log10(max(1, count))` seconds for the count actually requested
(the caller's count clamped to the channel's element count); count=1
gives 1.0 s and count=100 gives 3.0 s, while an explicit timeout is
used as given. -/
theorem default_get_timeout :
    (∀ c : Nat,
        resolve_timeout none c = 1.0 + Real.logb 10 (max 1 (c : ℝ)))
    ∧ (∀ t c, resolve_timeout (some t) c = t)
    ∧ resolve_timeout none (resolve_count (some 1) 1000) = 1
    ∧ resolve_timeout none (resolve_count (some 100) 1000) = 3 := by
  refine ⟨fun c => rfl, fun t c => rfl, ?_, ?_⟩
  · simp only [resolve_timeout, resolve_count]
    norm_num [Real.logb_one]
  · simp only [resolve_timeout, resolve_count]
    have h100 : (1 : ℝ) ⊔ ((100 ⊓ 1000 : ℕ) : ℝ) = 10 ^ (2 : ℕ) := by
      norm_num
    rw [h100, Real.logb_pow, Real.logb_self_eq_one] <;> norm_num

end PVAsync
